import Mathlib

/-!
Shallow embedding of `src/mkvCut.py` (a small ffmpeg-based video cutting
script) and verification of its specification.

Strings from the Python program are modelled as Lean `String`s / `List Char`;
Python `int` values are modelled as `Int` (arbitrary precision in both).
Character classification (`str.isdigit`, `str.strip`, `str.lower`) is modelled
over the ASCII range, which is the range exercised by the program's prompts.
-/

namespace MkvCut

/-- Whitespace characters removed by Python's `str.strip()` (ASCII range). -/
def isPySpace (c : Char) : Bool :=
  c = ' ' || c = '\t' || c = '\n' || c = '\r' || c = '\x0b' || c = '\x0c'

/-- Python `str.strip()`: drop whitespace from both ends. -/
def pyStrip (l : List Char) : List Char :=
  ((l.dropWhile isPySpace).reverse.dropWhile isPySpace).reverse

/-- Decimal digit test for a single character (ASCII `'0'`..`'9'`). -/
def isDigitCh (c : Char) : Bool :=
  48 ≤ c.toNat && c.toNat ≤ 57

/-- Python `str.isdigit()`: nonempty and every character a digit. -/
def pyIsDigit (l : List Char) : Bool :=
  !l.isEmpty && l.all isDigitCh

/-- Python `int(...)` on a pure digit string: decimal value. -/
def digitsToNat (l : List Char) : Nat :=
  l.foldl (fun a c => 10 * a + (c.toNat - 48)) 0

/-- Python `str.zfill(6)`: left-pad with `'0'` to at least 6 characters. -/
def zfill6 (l : List Char) : List Char :=
  List.replicate (6 - l.length) '0' ++ l

/-- The two failure kinds of `parse_time` (`ValueError` messages in the
source: non-digit input, and bad length). -/
inductive ParseError where
  | nonDigit
  | badLength
  deriving DecidableEq, Repr

instance {ε α : Type} [DecidableEq ε] [DecidableEq α] : DecidableEq (Except ε α) := fun x y =>
  match x, y with
  | .ok a, .ok b =>
      if h : a = b then isTrue (by rw [h]) else isFalse (by intro hc; cases hc; exact h rfl)
  | .error a, .error b =>
      if h : a = b then isTrue (by rw [h]) else isFalse (by intro hc; cases hc; exact h rfl)
  | .ok _, .error _ => isFalse (by intro hc; cases hc)
  | .error _, .ok _ => isFalse (by intro hc; cases hc)

/-- Function `parse_time` from `src/mkvCut.py` lines 25–38:
strips the input, rejects non-digit input (`NonDigit`), rejects lengths
outside 1..6 (`BadLength`), left-pads to 6 digits and combines the
`[:-4]` / `[-4:-2]` / `[-2:]` slices as hours/minutes/seconds
(hours only when more than 4 digits, minutes only when more than 2). -/
def parse_time (time_str : String) : Except ParseError Int :=
  let clean := pyStrip time_str.data
  if pyIsDigit clean = false then
    .error ParseError.nonDigit
  else
    let length := clean.length
    if 6 < length ∨ length < 1 then
      .error ParseError.badLength
    else
      let p := zfill6 clean
      let hours : Int := if 4 < length then (digitsToNat (p.take (p.length - 4)) : Int) else 0
      let minutes : Int := if 2 < length then (digitsToNat ((p.drop (p.length - 4)).take 2) : Int) else 0
      let seconds : Int := (digitsToNat (p.drop (p.length - 2)) : Int)
      .ok (hours * 3600 + minutes * 60 + seconds)

/-- The spec's description of the accepted case of `parseTimeCode`
(§4.1 / §8 of the spec, not the source): left-pad the digit string with
zeros to 6 characters, read positions `[0:2]` as hours, `[2:4]` as minutes,
`[4:6]` as seconds, and return `hours*3600 + minutes*60 + seconds`. -/
def specTimeValue (d : List Char) : Int :=
  let p := List.replicate (6 - d.length) '0' ++ d
  (digitsToNat (p.take 2) : Int) * 3600
    + (digitsToNat ((p.drop 2).take 2) : Int) * 60
    + (digitsToNat ((p.drop 4).take 2) : Int)

/-- Python floor division `x // m` (on numbers). -/
def pyFloorDiv (x m : ℚ) : ℤ := ⌊x / m⌋

/-- Python modulo `x % m`, defined by `x == (x // m) * m + x % m`. -/
def pyMod (x m : ℚ) : ℚ := x - m * (pyFloorDiv x m : ℚ)

/-- Left-pad a string with `'0'` to width `w` (Python's `0`-padded field
formatting for the non-negative values the program formats). -/
def zpad (w : Nat) (s : String) : String :=
  String.mk (List.replicate (w - s.length) '0') ++ s

/-- Round a rational to the nearest integer, ties to even (the rounding of
Python's `%.3f` float formatting, exact here on the program's values). -/
def roundHalfEven (q : ℚ) : ℤ :=
  let f := ⌊q⌋
  let r := q - (f : ℚ)
  if r < 1 / 2 then f
  else if 1 / 2 < r then f + 1
  else if f % 2 = 0 then f else f + 1

/-- Python `f"{secs:06.3f}"` for the non-negative values the program formats:
3 decimal digits, zero-padded to overall width 6. -/
def fmt_06_3f (q : ℚ) : String :=
  let m := roundHalfEven (q * 1000)
  zpad 6 (toString (m / 1000) ++ "." ++ zpad 3 (toString (m % 1000)))

/-- Function `format_time` from `src/mkvCut.py` lines 41–46:
`f"{hours:02d}:{int(minutes):02d}:{secs:06.3f}"` with
`hours = int(seconds // 3600)`, `minutes = int((seconds % 3600) // 60)`,
`secs = seconds % 60`. Numbers are modelled as exact rationals (the
program passes `int` values; the formatter must also accept fractional
input, per the spec). -/
def format_time (seconds : ℚ) : String :=
  let hours : ℤ := pyFloorDiv seconds 3600
  let minutes : ℤ := pyFloorDiv (pyMod seconds 3600) 60
  let secs : ℚ := pyMod seconds 60
  zpad 2 (toString hours) ++ ":" ++ zpad 2 (toString minutes) ++ ":" ++ fmt_06_3f secs

/-- The ffmpeg argument list built by `cut_video` (`src/mkvCut.py` lines
49–74): `duration = end_time - start_time`, then
`[ffmpeg_exe, -ss, start, -i, input, -t, duration, -c, copy, -map, 0,
-avoid_negative_ts, make_zero, output, -y]`. -/
def cut_video_cmd (ffmpeg_exe input_path : String) (start_time end_time : ℤ)
    (output_path : String) : List String :=
  let duration := end_time - start_time
  [ffmpeg_exe,
   "-ss", format_time (start_time : ℚ),
   "-i", input_path,
   "-t", format_time (duration : ℚ),
   "-c", "copy",
   "-map", "0",
   "-avoid_negative_ts", "make_zero",
   output_path,
   "-y"]

/-- Outcome of running the external ffmpeg process (`subprocess.run` in
`cut_video`, lines 79–94): zero exit, non-zero exit
(`CalledProcessError`, carrying the captured stderr), or executable not
found (`FileNotFoundError`). -/
inductive InvokeOutcome where
  | success
  | calledProcessError (stderr : String)
  | fileNotFound
  deriving DecidableEq, Repr

/-- The diagnostic printed on `FileNotFoundError` (`src/mkvCut.py` line 93). -/
def toolNotFoundMsg : String :=
  "Error: ffmpeg not found. Please ensure ffmpeg is installed and added to system PATH."

/-- The try/except reporting of `cut_video` (`src/mkvCut.py` lines 79–94):
returns the boolean result together with the messages printed. -/
def cut_video_report (o : InvokeOutcome) : Bool × List String :=
  match o with
  | .success => (true, ["Video cutting completed!"])
  | .calledProcessError stderr =>
      (false, ["Error: ffmpeg execution failed", "Error message: " ++ stderr])
  | .fileNotFound => (false, [toolNotFoundMsg])

/-- The output filename candidate of `main` (`src/mkvCut.py` line 158):
`f"{input_stem}_{start_input}_{end_input}{input_suffix}"`, built from the
raw (stripped) user-entered time texts. -/
def output_basename (input_stem start_input end_input input_suffix : String) : String :=
  input_stem ++ "_" ++ start_input ++ "_" ++ end_input ++ input_suffix

/-- The numbered collision candidate of `main` (`src/mkvCut.py` line 163):
`f"{input_stem}_{start_input}_{end_input}_{counter}{input_suffix}"`. -/
def output_numbered (input_stem start_input end_input input_suffix : String)
    (counter : ℕ) : String :=
  input_stem ++ "_" ++ start_input ++ "_" ++ end_input ++ "_" ++ Nat.repr counter ++ input_suffix

/-- The collision-avoidance loop of `main` (`src/mkvCut.py` lines 158–164):
start from the base candidate, and while the current candidate exists,
move to the next numbered candidate (`counter = 1, 2, ...`). `ex` models
`Path.exists` on the program directory; the Python loop is unbounded, so the
embedding carries fuel and returns `none` only when the fuel runs out. -/
def resolve_loop (ex : String → Bool) (stem s e suffix : String) :
    String → ℕ → ℕ → Option String
  | cur, _, 0 => if ex cur then none else some cur
  | cur, counter, fuel + 1 =>
      if ex cur then
        resolve_loop ex stem s e suffix (output_numbered stem s e suffix counter) (counter + 1) fuel
      else
        some cur

/-- Output path resolution of `main` (`src/mkvCut.py` lines 152–164). -/
def resolve_output_path (ex : String → Bool) (stem s e suffix : String) (fuel : ℕ) :
    Option String :=
  resolve_loop ex stem s e suffix (output_basename stem s e suffix) 1 fuel

/-- Python `str.lower()` (ASCII range, as exercised by the confirm prompt). -/
def pyLower (s : String) : String :=
  String.mk (s.data.map Char.toLower)

/-- The defensive negative-start check of `main` (`src/mkvCut.py` line 127):
`if start_time < 0`. -/
def start_negative_branch (start_time : ℤ) : Bool :=
  start_time < 0

/-- Result of the tail of `main` after the summary (lines 169–182): the
messages printed, the process exit code, and whether ffmpeg was invoked. -/
structure SessionResult where
  messages : List String
  exitCode : ℕ
  toolInvoked : Bool
  deriving DecidableEq, Repr

/-- The confirm-and-execute tail of `main` (`src/mkvCut.py` lines 169–182):
`confirm = input(...).strip().lower()`; if `confirm not in ('', 'y')` the
run is cancelled via `sys.exit(0)`; otherwise `cut_video` runs (with the
given invocation outcome) and its messages are printed, plus the
success-only output-path report; `main` then falls through the final
pause, so the process exits with code 0. -/
def main_session_tail (confirm_input : String) (output_path : String)
    (o : InvokeOutcome) : SessionResult :=
  let confirm := pyLower (String.mk (pyStrip confirm_input.data))
  if ¬ (confirm = "" ∨ confirm = "y") then
    { messages := ["Operation cancelled."], exitCode := 0, toolInvoked := false }
  else
    let r := cut_video_report o
    { messages := r.2 ++ (if r.1 then ["Output file saved to: " ++ output_path] else []),
      exitCode := 0,
      toolInvoked := true }

/-! Helper lemmas about the formatter. -/

theorem toString_intCast_nat (k : ℕ) : toString ((k : ℤ)) = Nat.repr k := rfl

theorem zpad_length (w : Nat) (s : String) : (zpad w s).length = max w s.length := by
  simp only [zpad, String.length_append]
  simp [List.length_replicate]
  omega

theorem pyFloorDiv_natCast (n m : ℕ) : pyFloorDiv (n : ℚ) (m : ℚ) = ((n / m : ℕ) : ℤ) := by
  simp only [pyFloorDiv]
  exact_mod_cast Rat.floor_natCast_div_natCast n m

theorem pyMod_natCast (n m : ℕ) : pyMod (n : ℚ) (m : ℚ) = ((n % m : ℕ) : ℚ) := by
  simp only [pyMod, pyFloorDiv_natCast]
  have h : ((n % m : ℕ) : ℚ) + (m : ℚ) * ((n / m : ℕ) : ℚ) = (n : ℚ) := by
    exact_mod_cast congrArg (Nat.cast : ℕ → ℚ) (Nat.mod_add_div n m)
  rw [Int.cast_natCast]
  linarith

theorem roundHalfEven_intCast (z : ℤ) : roundHalfEven (z : ℚ) = z := by
  simp only [roundHalfEven, Int.floor_intCast, sub_self]
  norm_num

theorem zpad_append_dot000 (s : String) : zpad 6 (s ++ ".000") = zpad 2 s ++ ".000" := by
  simp only [zpad, String.length_append]
  have h4 : (".000" : String).length = 4 := rfl
  rw [h4]
  have h2 : 6 - (s.length + 4) = 2 - s.length := by omega
  rw [h2, String.append_assoc]

theorem fmt_06_3f_natCast (k : ℕ) : fmt_06_3f (k : ℚ) = zpad 2 (Nat.repr k) ++ ".000" := by
  have h1 : ((k : ℚ) * 1000) = (((k * 1000 : ℕ) : ℤ) : ℚ) := by push_cast; ring
  simp only [fmt_06_3f, h1, roundHalfEven_intCast]
  have h2 : ((k * 1000 : ℕ) : ℤ) / 1000 = (k : ℤ) := by
    push_cast
    exact Int.mul_ediv_cancel _ (by norm_num)
  have h3 : ((k * 1000 : ℕ) : ℤ) % 1000 = 0 := by
    push_cast
    exact Int.mul_emod_left _ _
  rw [h2, h3, toString_intCast_nat]
  have h5 : zpad 3 (toString (0 : ℤ)) = "000" := rfl
  rw [h5, String.append_assoc]
  have h6 : ("." : String) ++ "000" = ".000" := rfl
  rw [h6, zpad_append_dot000]

/-- Bridge: `format_time` on a natural-number input, reduced to a pure
`Nat`-level string computation. -/
theorem format_time_natCast (n : ℕ) :
    format_time (n : ℚ) =
      zpad 2 (Nat.repr (n / 3600)) ++ ":" ++ zpad 2 (Nat.repr (n % 3600 / 60)) ++ ":" ++
        (zpad 2 (Nat.repr (n % 60)) ++ ".000") := by
  have e1 : (3600 : ℚ) = ((3600 : ℕ) : ℚ) := by norm_num
  have e2 : (60 : ℚ) = ((60 : ℕ) : ℚ) := by norm_num
  simp only [format_time, e1, e2, pyFloorDiv_natCast, pyMod_natCast, fmt_06_3f_natCast,
    toString_intCast_nat]

/-! Helper lemmas about the parser. -/

theorem digitsToNat_le_99 : ∀ l : List Char, l.length ≤ 2 →
    (∀ c ∈ l, isDigitCh c = true) → digitsToNat l ≤ 99
  | [], _, _ => by simp [digitsToNat]
  | [a], _, hd => by
      have ha := hd a (by simp)
      simp [isDigitCh] at ha
      simp [digitsToNat, List.foldl]
      omega
  | [a, b], _, hd => by
      have ha := hd a (by simp)
      have hb := hd b (by simp)
      simp [isDigitCh] at ha hb
      simp [digitsToNat, List.foldl]
      omega
  | _ :: _ :: _ :: _, h, _ => by simp at h

theorem zfill6_length {l : List Char} (h : l.length ≤ 6) : (zfill6 l).length = 6 := by
  simp [zfill6]
  omega

theorem zfill6_all_digit {l : List Char} (h : ∀ c ∈ l, isDigitCh c = true) :
    ∀ c ∈ zfill6 l, isDigitCh c = true := by
  intro c hc
  rcases List.mem_append.mp hc with h0 | hl
  · rw [List.eq_of_mem_replicate h0]
    decide
  · exact h c hl

theorem zfill6_take2_of_le4 {l : List Char} (h : l.length ≤ 4) :
    (zfill6 l).take 2 = ['0', '0'] := by
  have e : 6 - l.length = 2 + (4 - l.length) := by omega
  rw [zfill6, e, List.replicate_add, List.append_assoc,
    List.take_append_of_le_length (by simp), List.take_of_length_le (by simp)]
  rfl

theorem zfill6_drop2_take2_of_le2 {l : List Char} (h : l.length ≤ 2) :
    ((zfill6 l).drop 2).take 2 = ['0', '0'] := by
  have e : 6 - l.length = 2 + (2 + (2 - l.length)) := by omega
  rw [zfill6, e, List.replicate_add, List.append_assoc,
    List.drop_append_of_le_length (by simp)]
  have hd : (List.replicate 2 '0').drop 2 = [] := rfl
  rw [hd, List.nil_append, List.replicate_add, List.append_assoc,
    List.take_append_of_le_length (by simp), List.take_of_length_le (by simp)]
  rfl

theorem digitsToNat_pair : digitsToNat ['0', '0'] = 0 := rfl

theorem pyIsDigit_true {l : List Char} (h1 : 1 ≤ l.length)
    (hd : ∀ c ∈ l, isDigitCh c = true) : pyIsDigit l = true := by
  have hne : l.isEmpty = false := by
    cases l with
    | nil => simp at h1
    | cons a t => rfl
  simp [pyIsDigit, hne, List.all_eq_true]
  exact hd

/-- Core agreement lemma: on an input whose stripped form is a digit string
of length 1..6, `parse_time` succeeds and returns exactly the value the
spec describes (pad to 6, slice `[0:2]`/`[2:4]`/`[4:6]`, combine). -/
theorem parse_time_ok_of_valid {s : String}
    (hd : ∀ c ∈ pyStrip s.data, isDigitCh c = true)
    (h1 : 1 ≤ (pyStrip s.data).length) (h6 : (pyStrip s.data).length ≤ 6) :
    parse_time s = .ok (specTimeValue (pyStrip s.data)) := by
  have hdig := pyIsDigit_true h1 hd
  have hlen : ¬ (6 < (pyStrip s.data).length ∨ (pyStrip s.data).length < 1) := by omega
  simp only [parse_time, hdig]
  rw [if_neg (by simp), if_neg hlen]
  have hp6 : (zfill6 (pyStrip s.data)).length = 6 := zfill6_length h6
  have e4 : (zfill6 (pyStrip s.data)).length - 4 = 2 := by omega
  have e2 : (zfill6 (pyStrip s.data)).length - 2 = 4 := by omega
  rw [e4, e2]
  have hsec : (zfill6 (pyStrip s.data)).drop 4 = ((zfill6 (pyStrip s.data)).drop 4).take 2 := by
    rw [List.take_of_length_le (by simp [hp6])]
  have hspec : specTimeValue (pyStrip s.data) =
      (digitsToNat ((zfill6 (pyStrip s.data)).take 2) : ℤ) * 3600
        + (digitsToNat (((zfill6 (pyStrip s.data)).drop 2).take 2) : ℤ) * 60
        + (digitsToNat (((zfill6 (pyStrip s.data)).drop 4).take 2) : ℤ) := rfl
  rw [hspec, ← hsec]
  by_cases h4 : 4 < (pyStrip s.data).length
  · by_cases h2 : 2 < (pyStrip s.data).length
    · rw [if_pos h4, if_pos h2]
    · omega
  · rw [if_neg h4]
    have hh : digitsToNat ((zfill6 (pyStrip s.data)).take 2) = 0 := by
      rw [zfill6_take2_of_le4 (by omega)]
      rfl
    rw [hh]
    by_cases h2 : 2 < (pyStrip s.data).length
    · rw [if_pos h2]
      push_cast
      ring_nf
    · rw [if_neg h2]
      have hm : digitsToNat (((zfill6 (pyStrip s.data)).drop 2).take 2) = 0 := by
        rw [zfill6_drop2_take2_of_le2 (by omega)]
        rfl
      rw [hm]
      push_cast
      ring_nf

theorem specTimeValue_zfill (d : List Char) :
    specTimeValue d =
      (digitsToNat ((zfill6 d).take 2) : ℤ) * 3600
        + (digitsToNat (((zfill6 d).drop 2).take 2) : ℤ) * 60
        + (digitsToNat (((zfill6 d).drop 4).take 2) : ℤ) := rfl

/-- Each component of the spec value is a two-digit group, hence at most 99. -/
theorem specTimeValue_bound {d : List Char} (hd : ∀ c ∈ d, isDigitCh c = true) :
    ∃ a b c : ℕ, a ≤ 99 ∧ b ≤ 99 ∧ c ≤ 99 ∧
      specTimeValue d = (a : ℤ) * 3600 + (b : ℤ) * 60 + (c : ℤ) := by
  have hall := zfill6_all_digit hd
  refine ⟨_, _, _, ?_, ?_, ?_, specTimeValue_zfill d⟩
  · exact digitsToNat_le_99 _ (List.length_take_le 2 _)
      (fun c hc => hall c (List.mem_of_mem_take hc))
  · exact digitsToNat_le_99 _ (List.length_take_le 2 _)
      (fun c hc => hall c (List.mem_of_mem_drop (List.mem_of_mem_take hc)))
  · exact digitsToNat_le_99 _ (List.length_take_le 2 _)
      (fun c hc => hall c (List.mem_of_mem_drop (List.mem_of_mem_take hc)))

/-- Decomposition of a successful digit test. -/
theorem pyIsDigit_elim {l : List Char} (h : pyIsDigit l = true) :
    1 ≤ l.length ∧ ∀ c ∈ l, isDigitCh c = true := by
  simp only [pyIsDigit, Bool.and_eq_true, Bool.not_eq_true', List.all_eq_true] at h
  obtain ⟨hne, hall⟩ := h
  refine ⟨?_, fun c hc => hall c hc⟩
  cases hl : l with
  | nil => rw [hl] at hne; simp at hne
  | cons a t => simp [hl]

/-- Inversion: any value accepted by `parse_time` decomposes into three
two-digit groups. -/
theorem parse_time_ok_inv {s : String} {v : ℤ} (h : parse_time s = .ok v) :
    ∃ a b c : ℕ, a ≤ 99 ∧ b ≤ 99 ∧ c ≤ 99 ∧
      v = (a : ℤ) * 3600 + (b : ℤ) * 60 + (c : ℤ) := by
  by_cases hdig : pyIsDigit (pyStrip s.data) = true
  · obtain ⟨h1, hd⟩ := pyIsDigit_elim hdig
    by_cases h6 : (pyStrip s.data).length ≤ 6
    · rw [parse_time_ok_of_valid hd h1 h6] at h
      obtain ⟨a, b, c, ha, hb, hc, hv⟩ := specTimeValue_bound hd
      exact ⟨a, b, c, ha, hb, hc, by injection h with h'; rw [← h', hv]⟩
    · have hlen : (6 < (pyStrip s.data).length ∨ (pyStrip s.data).length < 1) = True := by
        simp; omega
      simp only [parse_time, hdig, hlen] at h
      simp at h
  · have hdig' : pyIsDigit (pyStrip s.data) = false := by
      revert hdig; cases pyIsDigit (pyStrip s.data) <;> simp
    simp only [parse_time, hdig'] at h
    simp at h

/-! Claim theorems. -/

/-- C1: for every input string that, after stripping surrounding whitespace,
consists of 1 to 6 decimal digits, `parse_time` succeeds and returns
`hours*3600 + minutes*60 + seconds` where hours/minutes/seconds are the
two-digit groups at positions `[0:2]`, `[2:4]`, `[4:6]` of the digit string
left-padded with zeros to 6 characters (the value `specTimeValue`). -/
theorem C1_parse_time_valid (s : String)
    (hd : ∀ c ∈ pyStrip s.data, isDigitCh c = true)
    (h1 : 1 ≤ (pyStrip s.data).length) (h6 : (pyStrip s.data).length ≤ 6) :
    parse_time s = .ok (specTimeValue (pyStrip s.data)) :=
  parse_time_ok_of_valid hd h1 h6

/-- Witness for C1 at the concrete input `"013245"`, whose spec value is
`5565` (= 1h 32m 45s). -/
theorem C1_witness :
    parse_time "013245" = .ok (specTimeValue (pyStrip "013245".data)) ∧
      specTimeValue (pyStrip "013245".data) = 5565 :=
  ⟨C1_parse_time_valid "013245" (by decide) (by decide) (by decide), by decide⟩

/-- C4 counterexample: the claim's length clause says the empty string
(length 0) fails with `BadLength`, but `parse_time ""` fails with
`NonDigit`: Python's `"".isdigit()` is false, and the digit check runs
before the length check. -/
theorem C4_counterexample :
    parse_time "" = .error ParseError.nonDigit ∧
      parse_time "" ≠ .error ParseError.badLength := by decide

/-- C4 (amended): after whitespace stripping, `parse_time` fails with
`ParseError(NonDigit)` whenever the input is empty or any character is not
a decimal digit (the digit check runs first and rejects the empty string),
and fails with `ParseError(BadLength)` whenever a nonempty all-digit input
is longer than 6 characters; over-long input is rejected, not truncated. -/
theorem C4_amended (s : String) :
    ((pyStrip s.data = [] ∨ ∃ c ∈ pyStrip s.data, isDigitCh c = false) →
      parse_time s = .error ParseError.nonDigit) ∧
    ((pyStrip s.data ≠ [] ∧ (∀ c ∈ pyStrip s.data, isDigitCh c = true) ∧
        6 < (pyStrip s.data).length) →
      parse_time s = .error ParseError.badLength) := by
  constructor
  · intro h
    have hfalse : pyIsDigit (pyStrip s.data) = false := by
      rcases h with hnil | ⟨c, hc, hbad⟩
      · simp [pyIsDigit, hnil]
      · simp [pyIsDigit, List.all_eq_true]
        intro _
        exact ⟨c, hc, by simp [hbad]⟩
    simp [parse_time, hfalse]
  · rintro ⟨hne, hall, hlen⟩
    have h1 : 1 ≤ (pyStrip s.data).length := by
      cases hl : pyStrip s.data with
      | nil => exact absurd hl hne
      | cons a t => simp [hl]
    have hdig := pyIsDigit_true h1 hall
    simp only [parse_time, hdig]
    rw [if_neg (by simp), if_pos (Or.inl hlen)]

/-- Witness for C4 (amended): `"12a45"` fails `NonDigit`, `"1234567"`
fails `BadLength`. -/
theorem C4_witness :
    parse_time "12a45" = .error ParseError.nonDigit ∧
      parse_time "1234567" = .error ParseError.badLength :=
  ⟨(C4_amended "12a45").1 (by decide), (C4_amended "1234567").2 (by decide)⟩

/-- C9: every value accepted by `parse_time` is non-negative, so the
defensive `if start_time < 0` branch of `main` (line 127) is never taken. -/
theorem C9_parse_nonneg (s : String) (v : ℤ) (h : parse_time s = .ok v) :
    start_negative_branch v = false := by
  obtain ⟨a, b, c, _, _, _, hv⟩ := parse_time_ok_inv h
  simp only [start_negative_branch, hv, decide_eq_false_iff_not, not_lt]
  omega

/-- Witness for C9 at `parse_time "45" = .ok 45`. -/
theorem C9_witness : start_negative_branch 45 = false :=
  C9_parse_nonneg "45" 45 (by decide)

/-- C10: `parse_time` does no per-component range validation: `"99"` parses
to 99 seconds and `"0199"` to 159 seconds, and every accepted value lies
between 0 and `99*3600 + 99*60 + 99 = 362439`. -/
theorem C10_component_bounds :
    (∀ (s : String) (v : ℤ), parse_time s = .ok v → 0 ≤ v ∧ v ≤ 362439) ∧
      parse_time "99" = .ok 99 ∧ parse_time "0199" = .ok 159 := by
  refine ⟨?_, by decide, by decide⟩
  intro s v h
  obtain ⟨a, b, c, ha, hb, hc, hv⟩ := parse_time_ok_inv h
  have ha' : (a : ℤ) ≤ 99 := by exact_mod_cast ha
  have hb' : (b : ℤ) ≤ 99 := by exact_mod_cast hb
  have hc' : (c : ℤ) ≤ 99 := by exact_mod_cast hc
  have ha0 : (0 : ℤ) ≤ a := Int.natCast_nonneg a
  have hb0 : (0 : ℤ) ≤ b := Int.natCast_nonneg b
  have hc0 : (0 : ℤ) ≤ c := Int.natCast_nonneg c
  constructor
  · rw [hv]; omega
  · rw [hv]; omega

/-- Witness for C10 at `parse_time "013245" = .ok 5565`. -/
theorem C10_witness : 0 ≤ (5565 : ℤ) ∧ (5565 : ℤ) ≤ 362439 :=
  C10_component_bounds.1 "013245" 5565 (by decide)

/-! Formatter evaluation helpers. -/

theorem repr_length_le_two : ∀ m : ℕ, m < 100 → (Nat.repr m).length ≤ 2 := by decide

theorem dot_append : ("." : String) ++ "000" = ".000" := rfl

theorem format_time_shape (n : ℕ) :
    ∃ hs ms si sf : String,
      format_time (n : ℚ) = hs ++ ":" ++ ms ++ ":" ++ si ++ "." ++ sf ∧
        2 ≤ hs.length ∧ ms.length = 2 ∧ si.length = 2 ∧ sf.length = 3 := by
  refine ⟨zpad 2 (Nat.repr (n / 3600)), zpad 2 (Nat.repr (n % 3600 / 60)),
    zpad 2 (Nat.repr (n % 60)), "000", ?_, ?_, ?_, ?_, rfl⟩
  · rw [format_time_natCast]
    simp only [String.append_assoc, ← dot_append]
  · rw [zpad_length]
    omega
  · rw [zpad_length]
    have := repr_length_le_two (n % 3600 / 60) (by omega)
    omega
  · rw [zpad_length]
    have := repr_length_le_two (n % 60) (by omega)
    omega

theorem format_time_frac : format_time (91 / 2 : ℚ) = "00:00:45.500" := by
  have hdiv : pyFloorDiv ((91 : ℚ) / 2) 3600 = 0 := by
    simp only [pyFloorDiv]
    rw [show ((91 : ℚ) / 2) / 3600 = ((91 : ℤ) : ℚ) / ((7200 : ℕ) : ℚ) by push_cast; ring]
    rw [Rat.floor_intCast_div_natCast]
    decide
  have hdiv2 : pyFloorDiv ((91 : ℚ) / 2) 60 = 0 := by
    simp only [pyFloorDiv]
    rw [show ((91 : ℚ) / 2) / 60 = ((91 : ℤ) : ℚ) / ((120 : ℕ) : ℚ) by push_cast; ring]
    rw [Rat.floor_intCast_div_natCast]
    decide
  have hmod : pyMod ((91 : ℚ) / 2) 3600 = (91 : ℚ) / 2 := by
    simp only [pyMod, hdiv]
    push_cast
    ring
  have hmod2 : pyMod ((91 : ℚ) / 2) 60 = (91 : ℚ) / 2 := by
    simp only [pyMod, hdiv2]
    push_cast
    ring
  have h1000 : ((91 : ℚ) / 2) * 1000 = ((45500 : ℤ) : ℚ) := by push_cast; ring
  simp only [format_time, hdiv, hmod, hdiv2, hmod2, fmt_06_3f, h1000, roundHalfEven_intCast]
  decide

/-- C8: `format_time` produces `HH:MM:SS.mmm`: hours render with at least 2
digits and no enforced upper bound (360000 s renders as `"100:..."`),
minutes are 2 digits, the seconds field has width 6 with 3 decimal digits;
`format_time 5565 = "01:32:45.000"`, and the fractional input 45.5 renders
its fraction in the millisecond digits. -/
theorem C8_format_time :
    format_time 5565 = "01:32:45.000" ∧
    format_time 360000 = "100:00:00.000" ∧
    format_time (91 / 2 : ℚ) = "00:00:45.500" ∧
    ∀ n : ℕ, ∃ hs ms si sf : String,
      format_time (n : ℚ) = hs ++ ":" ++ ms ++ ":" ++ si ++ "." ++ sf ∧
        2 ≤ hs.length ∧ ms.length = 2 ∧ si.length = 2 ∧ sf.length = 3 := by
  refine ⟨?_, ?_, format_time_frac, format_time_shape⟩
  · rw [show (5565 : ℚ) = ((5565 : ℕ) : ℚ) by norm_num, format_time_natCast]
    decide
  · rw [show (360000 : ℚ) = ((360000 : ℕ) : ℚ) by norm_num, format_time_natCast]
    decide

/-- C2: the ffmpeg invocation computes the cut duration as `end - start`,
places `-ss <start>` before `-i <input>` (list positions 1 < 3) and
`-t <duration>` after the input (position 5); for start `"45"` and end
`"0130"` (45 s and 90 s), both the seek argument and the duration argument
format to `"00:00:45.000"`. -/
theorem C2_cut_video_cmd :
    (∀ (exe inp out : String) (st en : ℤ),
      (cut_video_cmd exe inp st en out).get? 1 = some "-ss" ∧
      (cut_video_cmd exe inp st en out).get? 2 = some (format_time (st : ℚ)) ∧
      (cut_video_cmd exe inp st en out).get? 3 = some "-i" ∧
      (cut_video_cmd exe inp st en out).get? 4 = some inp ∧
      (cut_video_cmd exe inp st en out).get? 5 = some "-t" ∧
      (cut_video_cmd exe inp st en out).get? 6 = some (format_time ((en - st : ℤ) : ℚ))) ∧
    parse_time "45" = .ok 45 ∧ parse_time "0130" = .ok 90 ∧
    format_time ((45 : ℤ) : ℚ) = "00:00:45.000" ∧
    format_time (((90 : ℤ) - 45 : ℤ) : ℚ) = "00:00:45.000" := by
  have h45 : format_time ((45 : ℤ) : ℚ) = "00:00:45.000" := by
    rw [show ((45 : ℤ) : ℚ) = ((45 : ℕ) : ℚ) by norm_num, format_time_natCast]
    decide
  refine ⟨?_, by decide, by decide, h45, ?_⟩
  · intro exe inp out st en
    exact ⟨rfl, rfl, rfl, rfl, rfl, rfl⟩
  · rw [show ((90 : ℤ) - 45 : ℤ) = (45 : ℤ) by norm_num]
    exact h45

/-- The collision loop never returns a name for which `ex` holds. -/
theorem resolve_loop_ok {ex : String → Bool} {stem s e suffix : String} :
    ∀ (fuel : ℕ) (cur : String) (counter : ℕ) (r : String),
      resolve_loop ex stem s e suffix cur counter fuel = some r → ex r = false := by
  intro fuel
  induction fuel with
  | zero =>
      intro cur counter r h
      simp only [resolve_loop] at h
      cases hcur : ex cur with
      | true => rw [hcur] at h; simp at h
      | false => rw [hcur] at h; simp at h; rw [← h]; exact hcur
  | succ n ih =>
      intro cur counter r h
      simp only [resolve_loop] at h
      cases hcur : ex cur with
      | true => rw [hcur] at h; simp at h; exact ih _ _ _ h
      | false => rw [hcur] at h; simp at h; rw [← h]; exact hcur

/-- C3: the output path resolver never returns a path that already exists:
whatever result the `main` collision loop produces, `ex` is false on it;
when the base candidate `{stem}_{start}_{end}{suffix}` is free it is chosen
as-is; and when exactly `clip_010000_020000.mp4` exists, the resolver picks
`clip_010000_020000_1.mp4` instead of reusing the colliding name. -/
theorem C3_resolve_no_overwrite :
    (∀ (ex : String → Bool) (stem s e suffix : String) (fuel : ℕ) (r : String),
      resolve_output_path ex stem s e suffix fuel = some r → ex r = false) ∧
    (∀ (ex : String → Bool) (stem s e suffix : String) (fuel : ℕ),
      ex (output_basename stem s e suffix) = false →
      resolve_output_path ex stem s e suffix fuel = some (output_basename stem s e suffix)) ∧
    resolve_output_path (fun p => p == "clip_010000_020000.mp4")
      "clip" "010000" "020000" ".mp4" 8 = some "clip_010000_020000_1.mp4" := by
  refine ⟨?_, ?_, by decide⟩
  · intro ex stem s e suffix fuel r h
    exact resolve_loop_ok fuel _ 1 r h
  · intro ex stem s e suffix fuel hfree
    cases fuel with
    | zero => simp [resolve_output_path, resolve_loop, hfree]
    | succ n => simp [resolve_output_path, resolve_loop, hfree]

/-- Witness for C3 at the concrete collision scenario. -/
theorem C3_witness :
    (fun p => p == "clip_010000_020000.mp4") "clip_010000_020000_1.mp4" = false :=
  C3_resolve_no_overwrite.1 (fun p => p == "clip_010000_020000.mp4")
    "clip" "010000" "020000" ".mp4" 8 "clip_010000_020000_1.mp4" (by decide)

/-- C5: when the external invocation fails — non-zero exit or executable not
found — `cut_video` reports the failure (the captured stderr text, or the
tool-not-installed diagnostic) and returns `false` rather than faulting,
and `main` still terminates with exit code 0 in every case. -/
theorem C5_failure_reported_exit_zero :
    (∀ st : String,
      (cut_video_report (.calledProcessError st)).1 = false ∧
        ("Error message: " ++ st) ∈ (cut_video_report (.calledProcessError st)).2) ∧
    ((cut_video_report .fileNotFound).1 = false ∧
      toolNotFoundMsg ∈ (cut_video_report .fileNotFound).2) ∧
    (∀ (ci out : String) (o : InvokeOutcome), (main_session_tail ci out o).exitCode = 0) := by
  refine ⟨fun st => ⟨rfl, ?_⟩, ⟨rfl, ?_⟩, fun ci out o => ?_⟩
  · simp [cut_video_report]
  · simp [cut_video_report]
  · simp only [main_session_tail]
    split
    · rfl
    · rfl

/-- C6: the output filename embeds the raw (stripped) user-entered text, not
the normalized numeric value: `"0132"` and `"000132"` parse to the same
TimeCode (92 s) yet give different filename fragments; in general the base
name determines the raw start text. -/
theorem C6_raw_text_in_filename :
    parse_time "0132" = parse_time "000132" ∧
    parse_time "0132" = .ok 92 ∧
    String.mk (pyStrip " 0132 ".data) = "0132" ∧
    (∀ stem e suffix s1 s2 : String,
      output_basename stem s1 e suffix = output_basename stem s2 e suffix ↔ s1 = s2) ∧
    output_basename "clip" "0132" "0200" ".mp4" ≠
      output_basename "clip" "000132" "0200" ".mp4" := by
  refine ⟨by decide, by decide, by decide, ?_, by decide⟩
  intro stem e suffix s1 s2
  constructor
  · intro h
    have hd := congrArg String.data h
    simp only [output_basename, String.data_append, List.append_assoc] at hd
    have h1 := List.append_cancel_left hd
    have h2 := List.append_cancel_left h1
    have h3 := List.append_cancel_right h2
    exact String.ext h3
  · intro h
    rw [h]

/-- C7: at the confirm step the default is yes (empty input runs the tool),
and any stripped+lowercased response other than `""`/`"y"` cancels: no tool
invocation, message "Operation cancelled.", exit code 0; in particular
`"n"` cancels cleanly. -/
theorem C7_confirm_gate :
    (∀ (out : String) (o : InvokeOutcome),
      (main_session_tail "n" out o).toolInvoked = false ∧
      (main_session_tail "n" out o).exitCode = 0 ∧
      (main_session_tail "" out o).toolInvoked = true) ∧
    (∀ (ci out : String) (o : InvokeOutcome),
      ¬ (pyLower (String.mk (pyStrip ci.data)) = "" ∨
          pyLower (String.mk (pyStrip ci.data)) = "y") →
      (main_session_tail ci out o).toolInvoked = false ∧
      (main_session_tail ci out o).exitCode = 0 ∧
      (main_session_tail ci out o).messages = ["Operation cancelled."]) := by
  constructor
  · intro out o
    have hn : pyLower (String.mk (pyStrip ("n" : String).data)) = "n" := rfl
    have he : pyLower (String.mk (pyStrip ("" : String).data)) = "" := rfl
    refine ⟨?_, ?_, ?_⟩
    · simp only [main_session_tail, hn]
      rw [if_pos (by decide)]
    · simp only [main_session_tail, hn]
      rw [if_pos (by decide)]
    · simp only [main_session_tail, he]
      rw [if_neg (by decide)]
  · intro ci out o h
    simp only [main_session_tail]
    rw [if_pos h]
    exact ⟨rfl, rfl, rfl⟩

/-- Witness for C7: the input `"n"` (with a success-capable tool available)
cancels with no invocation and exit code 0. -/
theorem C7_witness :
    (main_session_tail "n" "out.mp4" .success).toolInvoked = false ∧
    (main_session_tail "n" "out.mp4" .success).exitCode = 0 ∧
    (main_session_tail "n" "out.mp4" .success).messages = ["Operation cancelled."] :=
  C7_confirm_gate.2 "n" "out.mp4" .success (by decide)

end MkvCut
